import Mathlib

/-!
# generateSoapNote: a shallow embedding of `functions/index.js`

The callable handler of `functions/index.js` is embedded as a pure function
from an environment (the collaborators the handler talks to: the secret
store, the model SDK and the remote model) and a request to a run: the
ordered list of effects the handler performed together with the way the
handler ended (a returned value, a thrown `HttpsError`, or any other
exception that leaves the handler).

JavaScript values are embedded only as far as the handler inspects them:

* a payload field is a JSON text field: an absent key (`undefined`), `null`
  or a string; its truthiness and its rendering inside a template literal
  follow JavaScript;
* `request.auth` is absent or an object carrying `uid`;
* `request.data` is absent (`null`) or an object with the five fields; the
  callback is embedded twice, on payloads of JSON text fields (the data model
  of the specification) and on payloads of arbitrary JSON values, and the two
  agree on text fields;
* a thrown value is an object with a `message`, a non-nullish value without
  one, or `null`/`undefined`.
-/

namespace SoapWriter

/-! ## Data model -/

/-- A payload field of `request.data` after destructuring. -/
inductive Field where
  | undefined
  | null
  | text (s : String)
  deriving DecidableEq, Repr

/-- JavaScript truthiness of a field (`if (x)`): only a non-empty string is truthy. -/
def Field.truthy : Field → Bool
  | .text s => s != ""
  | _ => false

/-- Rendering of a field inside a template literal. -/
def Field.render : Field → String
  | .undefined => "undefined"
  | .null => "null"
  | .text s => s

/-- The object `request.data`. -/
structure Payload where
  patientInfo : Field
  specialtyFocus : Field
  uptodateInfo : Field
  micromedexInfo : Field
  openevidenceInfo : Field
  deriving DecidableEq, Repr

/-- The object `request.auth`. -/
structure Auth where
  uid : String
  deriving DecidableEq, Repr

/-- The argument of the callable handler. -/
structure Request where
  auth : Option Auth
  data : Option Payload
  deriving DecidableEq, Repr

/-! ## Prompt composition (source lines 108-126) -/

/-- The opening of the user prompt, up to the interpolated `patientInfo`. -/
def patientHeader : String := "--- 病患核心資料 (必填) START ---\n"

/-- The text following the interpolated `patientInfo`. -/
def patientFooter : String := "\n--- 病患核心資料 END ---\n"

/-- The text appended for a truthy `specialtyFocus`. -/
def specialtySection (s : String) : String :=
  "\n--- 專科焦點 (選填) ---\n" ++ s ++ "\n"

/-- The text appended for a truthy `uptodateInfo`. -/
def uptodateSection (s : String) : String :=
  "\n--- UpToDate 資料 (選填) START ---\n" ++ s ++ "\n--- UpToDate 資料 END ---\n"

/-- The text appended for a truthy `micromedexInfo`. -/
def micromedexSection (s : String) : String :=
  "\n--- Micromedex 資料 (選填) START ---\n" ++ s ++ "\n--- Micromedex 資料 END ---\n"

/-- The text appended for a truthy `openevidenceInfo`. -/
def openevidenceSection (s : String) : String :=
  "\n--- OpenEvidence 資料 (選填) START ---\n" ++ s ++ "\n--- OpenEvidence 資料 END ---\n"

/-- The closing sentence appended last. -/
def closingSentence : String :=
  "\n請根據上述所有資訊，使用最新的國際指引產生一份藥師 SOAP 筆記。"

/-- The variable `userPrompt` at the end of step 4: the initial template
followed by the four conditional `+=` and the final `+=`. -/
def userPrompt (d : Payload) : String :=
  let p0 := patientHeader ++ d.patientInfo.render ++ patientFooter
  let p1 := if d.specialtyFocus.truthy then p0 ++ specialtySection d.specialtyFocus.render else p0
  let p2 := if d.uptodateInfo.truthy then p1 ++ uptodateSection d.uptodateInfo.render else p1
  let p3 := if d.micromedexInfo.truthy then p2 ++ micromedexSection d.micromedexInfo.render else p2
  let p4 := if d.openevidenceInfo.truthy then p3 ++ openevidenceSection d.openevidenceInfo.render else p3
  p4 ++ closingSentence

/-! ## Constants of the handler -/

/-- The constant `MODEL_NAME`. -/
def MODEL_NAME : String := "gemini-2.5-flash-preview-09-2025"

/-- The template literal `systemPrompt` (source lines 72-106), line by line.
Inside a template literal the escape backslash-t of line 105 is a tab character. -/
def systemPrompt : String :=
  String.intercalate "\n" [
    "您是一位頂尖的臨床藥師，擁有豐富的經驗，並且隨時掌握最新的國際醫療指引。",
    "",
    "您的任務是 (v15.4)：",
    "1.  仔細分析使用者在 [病患核心資料] 中提供的資訊 (病史、Lab、用藥等)。",
    "2.  自動識別出最相關的主要病症。",
    "3.  (最重要) **使用 Google 搜尋來查找並確認**該病症**「實際的最新指引版本和年份」**。",
    "    * 例如：搜尋 \"latest GINA guideline update\", \"current GOLD report version\", \"AHA hypertension guideline latest year\"。",
    "    * 您必須理解，指引**並非每年更新**。您的目標是找到那個「實際的」年份。",
    "4.  (重要) **請分析**病患目前用藥清單中的**潛在藥物交互作用 (DDI)** 或**重複用藥 (Duplicate Therapy)**。您可以使用 Google 搜尋來輔助驗證。",
    "5.  (v14.1) 如果使用者提供了 [專科焦點] (例如 \"心臟內科\")，您的評估應更側重於該領域。",
    "6.  (v15.2) 使用者可能會在 [UpToDate 資料], [Micromedex 資料], [OpenEvidence 資料] 欄位提供補充資訊。",
    "7.  (v15.2) 如果這些欄位「有內容」，您**必須**將這些重點整合到您的 (A) 或 (P) 中，並且**「明確註明來源」**(例如：\"根據 Micromedex 資料...\" 或 \"UpToDate 亦指出...\")。如果欄位為空，則忽略。",
    "8.  根據「SOAP」格式，撰寫一份專業、精確、格式化的藥師筆記草稿 (保留粗體和換行)。",
    "9.  在您的「Assessment (A)」部分：",
    "    * **(v14.1 強制)** **必須明確提及**您參考的指引名稱與**「實際年份」** (例如：\"根據 GINA 2024 指引...\")。",
    "    * **(v14.1 強制)** **必須引用**該指引中的**「精確原文句子」**來支持您的臨床決策 (例如：\"...GINA 2024 建議... (原文: '...')\")。",
    "    * **必須包含**您對 DDI 或重複用藥的評估。",
    "    * **必須包含**對腎功能 (eGFR) 的考量與劑量評估。",
    "10. 在您的「Plan (P)」部分：",
    "    * 您的所有建議都必須**符合**您在 (A) 中提到的最新指引。",
    "",
    "11. (*** v14 格式要求 ***)",
    "    * 您的回覆**必須**嚴格遵守此格式：",
    "    [完整的 SOAP 筆記 (S, O, A, P)]",
    "    ---GUIDELINES_USED---",
    "    * [指引 1 名稱] - [年份]",
    "    * [指引 2 名稱] - [年份]",
    "    * [其他參考的 DDI 資料庫或文獻]",
    "    * (v15.2) [若有使用 UpToDate, 請註明]",
    "    * (v15.2) [若有使用 Micromedex, 請註明]",
    "    * (v15.2) [若有使用 OpenEvidence, 請註明]",
    "",
    "12. (*** v14.4 格式禁止 ***)",
    "    * **禁止**在您的回覆中使用任何 LaTeX 語法 (例如 $...$ 或 $$...$$ 或 \text\x7b\x7d)。",
    "    * 必須直接使用 Unicode 字元 (例如：β, α, °, ≈, mmHg)。"]

/-! ## Collaborators: thrown values, the model response, the environment -/

/-- A value thrown by a collaborator, as far as the `catch` block inspects it
(it reads `error.message`). -/
inductive Thrown where
  /-- an object whose `message` renders as the given string (every `Error`) -/
  | error (message : String)
  /-- a non-nullish value without a `message` property -/
  | noMessage
  /-- the value `null` or `undefined` -/
  | nullish
  deriving DecidableEq, Repr

/-- The object `attr.web`. -/
structure Web where
  uri : Option String
  title : Option String
  deriving DecidableEq, Repr

/-- One element of `groundingMetadata.groundingAttributions`. -/
structure GroundingAttribution where
  web : Option Web
  deriving DecidableEq, Repr

/-- The object `response.groundingMetadata`. -/
structure GroundingMetadata where
  groundingAttributions : Option (List GroundingAttribution)
  deriving DecidableEq, Repr

/-- The object `result.response`: `text` is what the call `response.text()`
does, a returned string or a thrown value. -/
structure Response where
  text : Except Thrown String
  groundingMetadata : Option GroundingMetadata

/-- The argument of `model.generateContent`: the text of the only part of the
only content, and the text of the only part of the system instruction. -/
structure GenerateContentRequest where
  contents : String
  systemInstruction : String
  deriving DecidableEq, Repr

/-- The argument of `genAI.getGenerativeModel`; `tools` lists the names of the
enabled tools. -/
structure ModelParams where
  model : String
  tools : List String
  deriving DecidableEq, Repr

/-- The object returned by `getGenerativeModel`, as its method `generateContent`. -/
structure GenerativeModel where
  generateContent : GenerateContentRequest → Except Thrown Response

/-- The collaborators of the handler. -/
structure Env where
  /-- the call `geminiApiKey.value()` -/
  secretValue : Except Thrown String
  /-- the calls `new GoogleGenerativeAI(key)` and `genAI.getGenerativeModel(params)` -/
  getGenerativeModel : String → ModelParams → Except Thrown GenerativeModel

/-! ## Results of the handler -/

/-- An element of the returned `sources`: the object built by the `map`
callback; a missing property is `none`. -/
structure Source where
  uri : Option String
  title : Option String
  deriving DecidableEq, Repr

/-- The object returned by the handler. -/
structure Result where
  soapNote : String
  sources : List Source
  deriving DecidableEq, Repr

/-- How an invocation of the handler ends. -/
inductive Outcome where
  /-- the handler returned a value -/
  | returned (r : Result)
  /-- the handler threw `new HttpsError(code, message)` -/
  | httpsError (code : String) (message : String)
  /-- a value thrown by a collaborator left the handler unconverted -/
  | uncaught (e : Thrown)
  /-- a `TypeError` raised by the language runtime left the handler -/
  | uncaughtTypeError
  deriving DecidableEq, Repr

/-- An effect performed by the handler. -/
inductive Event where
  | logWarn (message : String)
  | logInfo (message : String)
  | logError (message : String)
  /-- the call `geminiApiKey.value()` -/
  | secretRead
  /-- the construction of the model client with the given key -/
  | modelConstructed (key : String) (params : ModelParams)
  /-- the call `model.generateContent(...)` -/
  | remoteCall (req : GenerateContentRequest)
  deriving DecidableEq, Repr

/-- One invocation of the handler: the effects in order, and the end. -/
structure Run where
  trace : List Event
  outcome : Outcome
  deriving DecidableEq, Repr

/-! ## Response extraction (source lines 141-154) -/

/-- JavaScript truthiness of an optional string property. -/
def truthyStr : Option String → Bool
  | some s => s != ""
  | none => false

/-- The `map` callback: `attr.web?.uri` and `attr.web?.title`. -/
def toSource (attr : GroundingAttribution) : Source :=
  match attr.web with
  | some w => { uri := w.uri, title := w.title }
  | none => { uri := none, title := none }

/-- The `filter` callback: `source.uri && source.title`. -/
def keepSource (source : Source) : Bool :=
  truthyStr source.uri && truthyStr source.title

/-- The variable `sources` at the `return`. -/
def extractSources (groundingMetadata : Option GroundingMetadata) : List Source :=
  match groundingMetadata with
  | none => []
  | some gm =>
    match gm.groundingAttributions with
    | none => []
    | some attrs => (attrs.map toSource).filter keepSource

/-! ## The handler (source lines 25-170) -/

/-- The argument of `getGenerativeModel` in step 3. -/
def modelParams : ModelParams := { model := MODEL_NAME, tools := ["google_search"] }

/-- The `catch` block of step 5: it logs, reads `error.message` and throws an
`HttpsError`; reading a property of `null` or `undefined` is a `TypeError`. -/
def catchBlock (error : Thrown) : Run :=
  match error with
  | .error m =>
    { trace := [.logError "Gemini API 呼叫失敗："],
      outcome := .httpsError "internal" ("AI 引擎錯誤: " ++ m) }
  | .noMessage =>
    { trace := [.logError "Gemini API 呼叫失敗："],
      outcome := .httpsError "internal" ("AI 引擎錯誤: " ++ "undefined") }
  | .nullish =>
    { trace := [.logError "Gemini API 呼叫失敗："], outcome := .uncaughtTypeError }

/-- Step 5: the `try` block and its `catch`. -/
def callModel (model : GenerativeModel) (req : GenerateContentRequest) : Run :=
  match model.generateContent req with
  | .error e =>
    let c := catchBlock e
    { trace := .remoteCall req :: c.trace, outcome := c.outcome }
  | .ok response =>
    match response.text with
    | .error e =>
      let c := catchBlock e
      { trace := .remoteCall req :: c.trace, outcome := c.outcome }
    | .ok text =>
      { trace := [.remoteCall req],
        outcome := .returned
          { soapNote := text, sources := extractSources response.groundingMetadata } }

/-- The callback passed to `onCall`, on requests whose payload fields are JSON
text fields. -/
def generateSoapNote (env : Env) (request : Request) : Run :=
  match request.auth with
  | none =>
    { trace := [.logWarn "未經身份驗證的請求"],
      outcome := .httpsError "unauthenticated" "您必須登入才能使用此功能。" }
  | some auth =>
    let t1 : List Event := [.logInfo ("已驗證來自 " ++ auth.uid ++ " 的請求。")]
    match request.data with
    | none => { trace := t1, outcome := .uncaughtTypeError }
    | some d =>
      if !d.patientInfo.truthy then
        { trace := t1,
          outcome := .httpsError "invalid-argument" "請求中缺少 'patientInfo' (病患核心資料)。" }
      else
        match env.secretValue with
        | .error e => { trace := t1 ++ [.secretRead], outcome := .uncaught e }
        | .ok key =>
          match env.getGenerativeModel key modelParams with
          | .error e =>
            { trace := t1 ++ [.secretRead, .modelConstructed key modelParams],
              outcome := .uncaught e }
          | .ok model =>
            let c := callModel model
              { contents := userPrompt d, systemInstruction := systemPrompt }
            { trace := t1 ++ [.secretRead, .modelConstructed key modelParams] ++ c.trace,
              outcome := c.outcome }

/-! ## Vocabulary of the specification -/

/-- The three error kinds of the specification. -/
inductive ErrorKind where
  | Unauthenticated
  | InvalidArgument
  | Internal
  deriving DecidableEq, Repr

/-- The error kind named by the code string given to `HttpsError`. -/
def kindOfCode (code : String) : Option ErrorKind :=
  if code = "unauthenticated" then some .Unauthenticated
  else if code = "invalid-argument" then some .InvalidArgument
  else if code = "internal" then some .Internal
  else none

/-- The typed error kind an invocation ended with, if it ended with one. -/
def Outcome.errorKind : Outcome → Option ErrorKind
  | .httpsError code _ => kindOfCode code
  | _ => none

/-- The invocation ended with a returned value. -/
def Outcome.isResult : Outcome → Bool
  | .returned _ => true
  | _ => false

/-- A text occurs in another as a contiguous substring. -/
def occursIn (pat s : String) : Prop := pat.data <:+: s.data

instance (pat s : String) : Decidable (occursIn pat s) :=
  inferInstanceAs (Decidable (pat.data <:+: s.data))

/-- A validated input: the payload of a request the guard accepts. -/
def validated (d : Payload) : Prop := d.patientInfo.truthy = true

instance (d : Payload) : Decidable (validated d) :=
  inferInstanceAs (Decidable (d.patientInfo.truthy = true))

/-- The guard rejects the request: no caller identity, or an identity with a
payload whose `patientInfo` is missing or empty. -/
def guardRejects (request : Request) : Prop :=
  request.auth = none ∨ ∃ d, request.data = some d ∧ d.patientInfo.truthy = false

/-- The effect reads the credential, constructs the model client or calls the
remote model. -/
def Event.touchesCollaborator : Event → Bool
  | .secretRead => true
  | .modelConstructed _ _ => true
  | .remoteCall _ => true
  | _ => false

/-- The invocation ended the way the specification allows: a returned value,
or a typed error of one of the three kinds. -/
def Outcome.resultOrTypedError (o : Outcome) : Prop :=
  (o.isResult = true ∧ o.errorKind = none) ∨
  (o.isResult = false ∧
    (o.errorKind = some .Unauthenticated ∨ o.errorKind = some .InvalidArgument ∨
      o.errorKind = some .Internal))

instance (o : Outcome) : Decidable o.resultOrTypedError :=
  inferInstanceAs (Decidable (_ ∨ _))

/-! ## Concrete collaborators and requests -/

/-- A model whose remote call throws an error with the given message. -/
def failingModel (m : String) : GenerativeModel :=
  { generateContent := fun _ => .error (.error m) }

/-- A model whose remote call returns the given response. -/
def answeringModel (r : Response) : GenerativeModel :=
  { generateContent := fun _ => .ok r }

/-- An environment with a readable credential and the given model. -/
def envOf (model : GenerativeModel) : Env :=
  { secretValue := .ok "k", getGenerativeModel := fun _ _ => .ok model }

/-- An environment whose credential lookup throws. -/
def envNoSecret : Env :=
  { secretValue := .error (.error "no secret"),
    getGenerativeModel := fun _ _ => .ok (failingModel "unreachable") }

/-- A payload with only `patientInfo` set. -/
def onlyPatient (s : String) : Payload :=
  { patientInfo := .text s, specialtyFocus := .undefined, uptodateInfo := .undefined,
    micromedexInfo := .undefined, openevidenceInfo := .undefined }

/-- A payload with an empty `patientInfo` and four filled optional fields. -/
def emptyPatientPayload : Payload :=
  { patientInfo := .text "", specialtyFocus := .text "cardiology", uptodateInfo := .text "a",
    micromedexInfo := .text "b", openevidenceInfo := .text "c" }

/-- An identified request whose `patientInfo` is `null`. -/
def nullPatientRequest : Request :=
  { auth := some { uid := "u1" },
    data := some { (onlyPatient "") with patientInfo := .null } }

/-- The request of scenario A. -/
def scenarioARequest : Request :=
  { auth := some { uid := "u1" }, data := some (onlyPatient "65F, HTN, eGFR 42") }

/-- The model response of scenario A. -/
def scenarioAResponse : Response :=
  { text := .ok "S:...\n---GUIDELINES_USED---\n* ADA 2024",
    groundingMetadata := some { groundingAttributions := some [] } }

/-- The attribution sequence of a response mapped to `{uri, title}` pairs,
before any filtering; empty when the metadata or its list is absent. -/
def attributionPairs (groundingMetadata : Option GroundingMetadata) : List Source :=
  match groundingMetadata with
  | none => []
  | some gm =>
    match gm.groundingAttributions with
    | none => []
    | some attrs => attrs.map toSource

/-- Both `uri` and `title` of a pair are present and non-empty. -/
def Source.bothPresent (s : Source) : Prop :=
  ∃ u t, s.uri = some u ∧ s.title = some t ∧ u ≠ "" ∧ t ≠ ""

/-- The environment reaches the remote call with the given model: the
credential lookup and the model construction return. -/
def Env.provides (env : Env) (key : String) (model : GenerativeModel) : Prop :=
  env.secretValue = .ok key ∧ env.getGenerativeModel key modelParams = .ok model

/-- The request sent to the remote model for a payload. -/
def requestFor (d : Payload) : GenerateContentRequest :=
  { contents := userPrompt d, systemInstruction := systemPrompt }

/-- An identified request without payload (`request.data` is `null`). -/
def noPayloadRequest : Request :=
  { auth := some { uid := "u1" }, data := none }

/-- An environment whose model construction throws. -/
def envNoModel : Env :=
  { secretValue := .ok "k", getGenerativeModel := fun _ _ => .error (.error "bad key") }

/-- A response whose attributions are: both fields, only `uri`, only `title`,
and the first one again. -/
def mixedResponse : Response :=
  { text := .ok "note without delimiter",
    groundingMetadata := some { groundingAttributions := some [
        { web := some { uri := some "https://a", title := some "A" } },
        { web := some { uri := some "https://b", title := none } },
        { web := some { uri := none, title := some "C" } },
        { web := some { uri := some "https://a", title := some "A" } } ] } }

/-- A response without the delimiter line and without grounding metadata. -/
def plainResponse : Response :=
  { text := .ok "free text, no delimiter", groundingMetadata := none }

/-! ## The exported callable (source line 19) -/

/-- A JSON value in a property of `request.data`. -/
inductive JsonField where
  /-- an absent key, `null` or a string -/
  | field (f : Field)
  /-- a boolean, a number, an array or an object, given by its truthiness and
  by its rendering inside a template literal: `none` when the conversion to a
  string throws a `TypeError` (an object whose own `toString` is not callable) -/
  | other (truthy : Bool) (rendering : Option String)
  deriving DecidableEq, Repr

/-- JavaScript truthiness of a JSON value (`if (x)`). -/
def JsonField.truthy : JsonField → Bool
  | .field f => f.truthy
  | .other t _ => t

/-- Rendering of a JSON value inside a template literal; `none` when the
conversion throws. -/
def JsonField.render : JsonField → Option String
  | .field f => some f.render
  | .other _ r => r

/-- The five properties the destructuring of line 43-49 reads from a non-null
`request.data`; for a value that is not an object all five are absent. -/
structure JsonPayload where
  patientInfo : JsonField
  specialtyFocus : JsonField
  uptodateInfo : JsonField
  micromedexInfo : JsonField
  openevidenceInfo : JsonField
  deriving DecidableEq, Repr

/-- The argument of the callback for every request the callable protocol can
deliver: `data` is `none` for `null`. -/
structure CallableRequest where
  auth : Option Auth
  data : Option JsonPayload
  deriving DecidableEq, Repr

/-- Step 4 on arbitrary JSON values: the variable `userPrompt` at the end of
step 4, or `none` when a template literal throws a `TypeError`. -/
def composeUserPrompt (d : JsonPayload) : Option String := do
  let patientInfo ← d.patientInfo.render
  let p0 := patientHeader ++ patientInfo ++ patientFooter
  let p1 ← if d.specialtyFocus.truthy then
      d.specialtyFocus.render.map (fun s => p0 ++ specialtySection s) else some p0
  let p2 ← if d.uptodateInfo.truthy then
      d.uptodateInfo.render.map (fun s => p1 ++ uptodateSection s) else some p1
  let p3 ← if d.micromedexInfo.truthy then
      d.micromedexInfo.render.map (fun s => p2 ++ micromedexSection s) else some p2
  let p4 ← if d.openevidenceInfo.truthy then
      d.openevidenceInfo.render.map (fun s => p3 ++ openevidenceSection s) else some p3
  some (p4 ++ closingSentence)

/-- The callback passed to `onCall` (source lines 25-170) on every request the
callable protocol can deliver. -/
def callableHandler (env : Env) (request : CallableRequest) : Run :=
  match request.auth with
  | none =>
    { trace := [.logWarn "未經身份驗證的請求"],
      outcome := .httpsError "unauthenticated" "您必須登入才能使用此功能。" }
  | some auth =>
    let t1 : List Event := [.logInfo ("已驗證來自 " ++ auth.uid ++ " 的請求。")]
    match request.data with
    | none => { trace := t1, outcome := .uncaughtTypeError }
    | some d =>
      if !d.patientInfo.truthy then
        { trace := t1,
          outcome := .httpsError "invalid-argument" "請求中缺少 'patientInfo' (病患核心資料)。" }
      else
        match env.secretValue with
        | .error e => { trace := t1 ++ [.secretRead], outcome := .uncaught e }
        | .ok key =>
          match env.getGenerativeModel key modelParams with
          | .error e =>
            { trace := t1 ++ [.secretRead, .modelConstructed key modelParams],
              outcome := .uncaught e }
          | .ok model =>
            match composeUserPrompt d with
            | none =>
              { trace := t1 ++ [.secretRead, .modelConstructed key modelParams],
                outcome := .uncaughtTypeError }
            | some prompt =>
              let c := callModel model
                { contents := prompt, systemInstruction := systemPrompt }
              { trace := t1 ++ [.secretRead, .modelConstructed key modelParams] ++ c.trace,
                outcome := c.outcome }

/-- Modelled from the spec: the wrapper `onCall` of the package
firebase-functions, which the export of line 19 puts around the callback and
which is not part of the source. Following sections 4.4 and 7 of the
specification, a failure that leaves the callback without being a typed error
is caught once at this outer boundary, logged, and converted to the typed error
Internal; a returned value and a thrown `HttpsError` pass unchanged. The text
of the log line and of the error message is not fixed by the specification and
is a parameter. -/
def onCall (boundaryText : String) (callback : Env → CallableRequest → Run)
    (env : Env) (request : CallableRequest) : Run :=
  let r := callback env request
  match r.outcome with
  | .returned _ => r
  | .httpsError _ _ => r
  | .uncaught _ =>
    { trace := r.trace ++ [.logError boundaryText],
      outcome := .httpsError "internal" boundaryText }
  | .uncaughtTypeError =>
    { trace := r.trace ++ [.logError boundaryText],
      outcome := .httpsError "internal" boundaryText }

/-- The value of `exports.generateSoapNote`: the callback inside `onCall`. -/
def exportedGenerateSoapNote (boundaryText : String) (env : Env)
    (request : CallableRequest) : Run :=
  onCall boundaryText callableHandler env request

/-- A payload of JSON text fields as a payload of JSON values. -/
def Payload.toJson (d : Payload) : JsonPayload :=
  { patientInfo := .field d.patientInfo, specialtyFocus := .field d.specialtyFocus,
    uptodateInfo := .field d.uptodateInfo, micromedexInfo := .field d.micromedexInfo,
    openevidenceInfo := .field d.openevidenceInfo }

/-- A request with JSON text fields as a request of the callable protocol. -/
def Request.toCallable (request : Request) : CallableRequest :=
  { auth := request.auth, data := request.data.map Payload.toJson }

/-- The invocation ended in one of the ways open to the callback: a result or
a typed error of the three kinds, or a failure that leaves it unconverted. -/
def Outcome.typedOrEscaped (o : Outcome) : Prop :=
  o.resultOrTypedError ∨ (∃ e, o = .uncaught e) ∨ o = .uncaughtTypeError

/-- An identified request whose `patientInfo` is an object with a `toString`
property that is not callable (truthy; its rendering throws). -/
def unprintableRequest : CallableRequest :=
  { auth := some { uid := "u1" },
    data := some
      { patientInfo := .other true none, specialtyFocus := .field .undefined,
        uptodateInfo := .field .undefined, micromedexInfo := .field .undefined,
        openevidenceInfo := .field .undefined } }

/-! ## Vocabulary of the specification: sections of the user message -/

/-- The four optional fields of the payload. -/
inductive OptionalField where
  | specialtyFocus
  | uptodateInfo
  | micromedexInfo
  | openevidenceInfo
  deriving DecidableEq, Repr

/-- The fixed field order of the composer. -/
def optionalFieldOrder : List OptionalField :=
  [.specialtyFocus, .uptodateInfo, .micromedexInfo, .openevidenceInfo]

/-- The value of an optional field in a payload. -/
def OptionalField.value (d : Payload) : OptionalField → Field
  | .specialtyFocus => d.specialtyFocus
  | .uptodateInfo => d.uptodateInfo
  | .micromedexInfo => d.micromedexInfo
  | .openevidenceInfo => d.openevidenceInfo

/-- The text that opens the labeled section of an optional field: the label
line between two line breaks. -/
def OptionalField.opening : OptionalField → String
  | .specialtyFocus => "\n--- 專科焦點 (選填) ---\n"
  | .uptodateInfo => "\n--- UpToDate 資料 (選填) START ---\n"
  | .micromedexInfo => "\n--- Micromedex 資料 (選填) START ---\n"
  | .openevidenceInfo => "\n--- OpenEvidence 資料 (選填) START ---\n"

/-- The text that ends the labeled section of an optional field: a line break,
and for the three reference sections the END line. -/
def OptionalField.ending : OptionalField → String
  | .specialtyFocus => "\n"
  | .uptodateInfo => "\n--- UpToDate 資料 END ---\n"
  | .micromedexInfo => "\n--- Micromedex 資料 END ---\n"
  | .openevidenceInfo => "\n--- OpenEvidence 資料 END ---\n"

/-- The labeled section of an optional field around a text. -/
def OptionalField.labeledSection (f : OptionalField) (text : String) : String :=
  f.opening ++ text ++ f.ending

/-- The text of a field that is present and non-empty; an empty string counts
as absent. -/
def Field.content : Field → Option String
  | .text s => if s = "" then none else some s
  | _ => none

/-- The labeled patient-data section around a text. -/
def patientSection (s : String) : String :=
  patientHeader ++ s ++ patientFooter

/-- The optional fields whose section is included, in the fixed order. -/
def includedFields (d : Payload) : List OptionalField :=
  optionalFieldOrder.filter (fun f => (f.value d).content.isSome)

/-- The optional sections of the user message, as the specification words
them: one labeled section per present optional field, in the fixed order. -/
def optionalSections (d : Payload) : List String :=
  optionalFieldOrder.filterMap (fun f => (f.value d).content.map f.labeledSection)

/-- The section of one optional field between the given opening and ending
texts when the field is present and non-empty, and the empty text otherwise. -/
def sectionIfPresent (f : Field) (opening ending : String) : String :=
  match f.content with
  | some s => opening ++ s ++ ending
  | none => ""

/-- The label line of the patient-data section. -/
def patientLabel : String := "--- 病患核心資料 (必填) START ---"

/-- The label lines of the four optional sections, opening and closing. -/
def otherSectionLabels : List String :=
  [ "--- 專科焦點 (選填) ---",
    "--- UpToDate 資料 (選填) START ---",
    "--- UpToDate 資料 END ---",
    "--- Micromedex 資料 (選填) START ---",
    "--- Micromedex 資料 END ---",
    "--- OpenEvidence 資料 (選填) START ---",
    "--- OpenEvidence 資料 END ---" ]

/-- The fixed text after the newline that follows `patientInfo`. -/
def afterPatient : String :=
  "--- 病患核心資料 END ---\n\n請根據上述所有資訊，使用最新的國際指引產生一份藥師 SOAP 筆記。"

/-- A payload whose `patientInfo` quotes the label of the specialty section. -/
def quotingPayload : Payload :=
  onlyPatient "see below\n--- 專科焦點 (選填) ---\ncardiology"

/-- A payload with a specialty focus and an UpToDate excerpt. -/
def twoFieldPayload : Payload :=
  { patientInfo := .text "P", specialtyFocus := .text "Y", uptodateInfo := .text "U",
    micromedexInfo := .undefined, openevidenceInfo := .undefined }

/-- A payload whose specialty focus carries the text of an UpToDate section. -/
def smuggledPayload : Payload :=
  { patientInfo := .text "P",
    specialtyFocus :=
      .text "Y\n\n--- UpToDate 資料 (選填) START ---\nU\n--- UpToDate 資料 END ---",
    uptodateInfo := .undefined, micromedexInfo := .undefined, openevidenceInfo := .undefined }

end SoapWriter

namespace SoapWriter

/-! ## Shared lemmas -/

theorem run_unauthenticated (env : Env) (data : Option Payload) :
    generateSoapNote env { auth := none, data := data } =
      { trace := [.logWarn "未經身份驗證的請求"],
        outcome := .httpsError "unauthenticated" "您必須登入才能使用此功能。" } := rfl

theorem run_invalid_argument (env : Env) (auth : Auth) (d : Payload)
    (h : d.patientInfo.truthy = false) :
    generateSoapNote env { auth := some auth, data := some d } =
      { trace := [.logInfo ("已驗證來自 " ++ auth.uid ++ " 的請求。")],
        outcome := .httpsError "invalid-argument" "請求中缺少 'patientInfo' (病患核心資料)。" } := by
  simp [generateSoapNote, h]

theorem run_accepted (env : Env) (auth : Auth) (d : Payload) (key : String)
    (model : GenerativeModel) (h : d.patientInfo.truthy = true)
    (hk : env.secretValue = .ok key)
    (hm : env.getGenerativeModel key modelParams = .ok model) :
    generateSoapNote env { auth := some auth, data := some d } =
      { trace := [.logInfo ("已驗證來自 " ++ auth.uid ++ " 的請求。")] ++
          [.secretRead, .modelConstructed key modelParams] ++
          (callModel model
            { contents := userPrompt d, systemInstruction := systemPrompt }).trace,
        outcome := (callModel model
            { contents := userPrompt d, systemInstruction := systemPrompt }).outcome } := by
  simp [generateSoapNote, h, hk, hm]

theorem kind_unauthenticated : kindOfCode "unauthenticated" = some .Unauthenticated := by
  decide

theorem kind_invalid_argument : kindOfCode "invalid-argument" = some .InvalidArgument := by
  decide

theorem kind_internal : kindOfCode "internal" = some .Internal := by
  decide

/-! ## Request guard -/

/-- C1: a request without caller identity ends with the typed error
Unauthenticated, whatever the payload is (also an absent payload) and whatever
the collaborators would do. -/
theorem unauthenticated_whatever_payload (env : Env) (data : Option Payload) :
    (generateSoapNote env { auth := none, data := data }).outcome =
        .httpsError "unauthenticated" "您必須登入才能使用此功能。" ∧
      (generateSoapNote env { auth := none, data := data }).outcome.errorKind =
        some .Unauthenticated := by
  rw [run_unauthenticated]
  exact ⟨rfl, kind_unauthenticated⟩

/-- C2: a request with a caller identity whose `patientInfo` is an absent key,
`null` or the empty string ends with the typed error InvalidArgument, whatever
the four optional fields contain. -/
theorem invalid_argument_when_patientInfo_empty (env : Env) (auth : Auth) (d : Payload)
    (h : d.patientInfo = .undefined ∨ d.patientInfo = .null ∨ d.patientInfo = .text "") :
    (generateSoapNote env { auth := some auth, data := some d }).outcome =
        .httpsError "invalid-argument" "請求中缺少 'patientInfo' (病患核心資料)。" ∧
      (generateSoapNote env { auth := some auth, data := some d }).outcome.errorKind =
        some .InvalidArgument := by
  have hf : d.patientInfo.truthy = false := by
    rcases h with h | h | h <;> rw [h] <;> rfl
  rw [run_invalid_argument env auth d hf]
  exact ⟨rfl, kind_invalid_argument⟩

/-- Witness of C2: an empty `patientInfo` next to four filled optional fields. -/
theorem invalid_argument_when_patientInfo_empty_witness :
    (emptyPatientPayload.patientInfo = .undefined ∨ emptyPatientPayload.patientInfo = .null ∨
        emptyPatientPayload.patientInfo = .text "") ∧
      (generateSoapNote envNoSecret
          { auth := some { uid := "u1" }, data := some emptyPatientPayload }).outcome =
        .httpsError "invalid-argument" "請求中缺少 'patientInfo' (病患核心資料)。" ∧
      (generateSoapNote envNoSecret
          { auth := some { uid := "u1" }, data := some emptyPatientPayload }).outcome.errorKind =
        some .InvalidArgument :=
  ⟨Or.inr (Or.inr rfl),
    invalid_argument_when_patientInfo_empty envNoSecret { uid := "u1" } emptyPatientPayload
      (Or.inr (Or.inr rfl))⟩

/-- C9: when the guard rejects a request, the handler performs no credential
read, no model construction and no remote call, and the whole run (effects and
typed error) is the same for every two environments. -/
theorem guard_rejects_before_collaborators (request : Request) (h : guardRejects request)
    (env env' : Env) :
    (∀ e ∈ (generateSoapNote env request).trace, e.touchesCollaborator = false) ∧
      generateSoapNote env request = generateSoapNote env' request ∧
      ((generateSoapNote env request).outcome.errorKind = some .Unauthenticated ∨
        (generateSoapNote env request).outcome.errorKind = some .InvalidArgument) := by
  obtain ⟨auth, data⟩ := request
  rcases h with h | ⟨d, hd, hf⟩
  · simp only at h
    subst h
    simp only [run_unauthenticated]
    refine ⟨?_, trivial, Or.inl kind_unauthenticated⟩
    intro e he
    simp at he
    subst he
    rfl
  · simp only at hd
    subst hd
    cases auth with
    | none =>
      simp only [run_unauthenticated]
      refine ⟨?_, trivial, Or.inl kind_unauthenticated⟩
      intro e he
      simp at he
      subst he
      rfl
    | some a =>
      simp only [run_invalid_argument _ a d hf]
      refine ⟨?_, trivial, Or.inr kind_invalid_argument⟩
      intro e he
      simp at he
      subst he
      rfl

/-- Witness of C9: an identified request with a `null` `patientInfo`, run with
a failing credential store and with a working environment. -/
theorem guard_rejects_before_collaborators_witness :
    guardRejects nullPatientRequest ∧
      (∀ e ∈ (generateSoapNote envNoSecret nullPatientRequest).trace,
        e.touchesCollaborator = false) ∧
      generateSoapNote envNoSecret nullPatientRequest =
        generateSoapNote (envOf (answeringModel scenarioAResponse)) nullPatientRequest ∧
      ((generateSoapNote envNoSecret nullPatientRequest).outcome.errorKind =
          some .Unauthenticated ∨
        (generateSoapNote envNoSecret nullPatientRequest).outcome.errorKind =
          some .InvalidArgument) :=
  ⟨Or.inr ⟨{ (onlyPatient "") with patientInfo := .null }, rfl, rfl⟩,
    guard_rejects_before_collaborators nullPatientRequest
      (Or.inr ⟨{ (onlyPatient "") with patientInfo := .null }, rfl, rfl⟩)
      envNoSecret (envOf (answeringModel scenarioAResponse))⟩


/-! ## Remote failures -/

theorem callModel_invocation_error (model : GenerativeModel) (req : GenerateContentRequest)
    (m : String) (h : model.generateContent req = .error (.error m)) :
    (callModel model req).outcome = .httpsError "internal" ("AI 引擎錯誤: " ++ m) := by
  simp [callModel, h, catchBlock]

theorem callModel_text_error (model : GenerativeModel) (req : GenerateContentRequest)
    (r : Response) (m : String) (h : model.generateContent req = .ok r)
    (ht : r.text = .error (.error m)) :
    (callModel model req).outcome = .httpsError "internal" ("AI 引擎錯誤: " ++ m) := by
  simp [callModel, h, ht, catchBlock]

theorem callModel_success (model : GenerativeModel) (req : GenerateContentRequest)
    (r : Response) (t : String) (h : model.generateContent req = .ok r)
    (ht : r.text = .ok t) :
    (callModel model req).outcome =
      .returned { soapNote := t, sources := extractSources r.groundingMetadata } := by
  simp [callModel, h, ht]

theorem outcome_accepted (env : Env) (auth : Auth) (d : Payload) (key : String)
    (model : GenerativeModel) (h : d.patientInfo.truthy = true)
    (hp : env.provides key model) :
    (generateSoapNote env { auth := some auth, data := some d }).outcome =
      (callModel model (requestFor d)).outcome := by
  rw [run_accepted env auth d key model h hp.1 hp.2]
  rfl

theorem occursIn_append_right (a m : String) : occursIn m (a ++ m) := by
  unfold occursIn
  rw [String.data_append]
  exact (List.suffix_append _ _).isInfix

/-- C3: for a request with a caller identity and a non-empty `patientInfo`
that reaches the remote call, a failure with description `m` raised by the
remote invocation (or by reading the text of its response) ends the handler
with the typed error Internal whose message contains `m`. -/
theorem remote_failure_is_internal (env : Env) (auth : Auth) (d : Payload) (key : String)
    (model : GenerativeModel) (m : String)
    (h : d.patientInfo.truthy = true) (hp : env.provides key model)
    (hf : model.generateContent (requestFor d) = .error (.error m) ∨
      ∃ r, model.generateContent (requestFor d) = .ok r ∧ r.text = .error (.error m)) :
    (generateSoapNote env { auth := some auth, data := some d }).outcome.errorKind =
        some .Internal ∧
      ∃ msg, (generateSoapNote env { auth := some auth, data := some d }).outcome =
          .httpsError "internal" msg ∧
        msg = "AI 引擎錯誤: " ++ m ∧ occursIn m msg := by
  have ho : (generateSoapNote env { auth := some auth, data := some d }).outcome =
      .httpsError "internal" ("AI 引擎錯誤: " ++ m) := by
    rw [outcome_accepted env auth d key model h hp]
    rcases hf with hf | ⟨r, hr, ht⟩
    · exact callModel_invocation_error model _ m hf
    · exact callModel_text_error model _ r m hr ht
  refine ⟨?_, "AI 引擎錯誤: " ++ m, ho, rfl, occursIn_append_right _ _⟩
  rw [ho]
  exact kind_internal

/-- Witness of C3: the remote call fails with "quota exceeded". -/
theorem remote_failure_is_internal_witness :
    (onlyPatient "65F").patientInfo.truthy = true ∧
      (envOf (failingModel "quota exceeded")).provides "k" (failingModel "quota exceeded") ∧
      (generateSoapNote (envOf (failingModel "quota exceeded"))
          { auth := some { uid := "u1" }, data := some (onlyPatient "65F") }).outcome.errorKind =
        some .Internal ∧
      ∃ msg, (generateSoapNote (envOf (failingModel "quota exceeded"))
          { auth := some { uid := "u1" }, data := some (onlyPatient "65F") }).outcome =
          .httpsError "internal" msg ∧
        msg = "AI 引擎錯誤: " ++ "quota exceeded" ∧ occursIn "quota exceeded" msg :=
  ⟨rfl, ⟨rfl, rfl⟩,
    remote_failure_is_internal (envOf (failingModel "quota exceeded")) { uid := "u1" }
      (onlyPatient "65F") "k" (failingModel "quota exceeded") "quota exceeded" rfl
      ⟨rfl, rfl⟩ (Or.inl rfl)⟩

/-! ## Successful responses -/

theorem keepSource_iff (s : Source) : keepSource s = true ↔ s.bothPresent := by
  obtain ⟨u, t⟩ := s
  cases u <;> cases t <;> simp [keepSource, truthyStr, Source.bothPresent]

theorem extractSources_eq_filter (gm : Option GroundingMetadata) :
    extractSources gm = (attributionPairs gm).filter keepSource := by
  unfold extractSources attributionPairs
  cases gm with
  | none => rfl
  | some g =>
    obtain ⟨a⟩ := g
    cases a <;> rfl

/-- C4: on a successful response the returned sources are the attribution
pairs in their original order (a sublist of the mapped sequence), every pair
with both fields present and non-empty is kept as often as it occurs (no
deduplication), every other pair is dropped, absent metadata or an absent
attribution list gives the empty sequence, and for attributions
[both fields, only uri, only title] the sources are exactly the first entry. -/
theorem sources_are_filtered_attributions (env : Env) (auth : Auth) (d : Payload)
    (key : String) (model : GenerativeModel) (r : Response) (t : String)
    (h : d.patientInfo.truthy = true) (hp : env.provides key model)
    (hr : model.generateContent (requestFor d) = .ok r) (ht : r.text = .ok t) :
    ∃ res, (generateSoapNote env { auth := some auth, data := some d }).outcome =
        .returned res ∧
      res.sources.Sublist (attributionPairs r.groundingMetadata) ∧
      (∀ s, s.bothPresent →
        res.sources.count s = (attributionPairs r.groundingMetadata).count s) ∧
      (∀ s ∈ res.sources, s.bothPresent) ∧
      ((r.groundingMetadata = none ∨
          r.groundingMetadata = some { groundingAttributions := none }) →
        res.sources = []) ∧
      (∀ u ti u2 t3, u ≠ "" → ti ≠ "" →
        r.groundingMetadata = some { groundingAttributions := some [
            { web := some { uri := some u, title := some ti } },
            { web := some { uri := some u2, title := none } },
            { web := some { uri := none, title := some t3 } } ] } →
        res.sources = [{ uri := some u, title := some ti }]) := by
  refine ⟨{ soapNote := t, sources := extractSources r.groundingMetadata }, ?_, ?_, ?_, ?_, ?_, ?_⟩
  · rw [outcome_accepted env auth d key model h hp]
    exact callModel_success model _ r t hr ht
  · simp only [extractSources_eq_filter]
    exact List.filter_sublist _
  · intro s hs
    simp only [extractSources_eq_filter]
    exact List.count_filter ((keepSource_iff s).2 hs)
  · intro s hs
    simp only [extractSources_eq_filter] at hs
    exact (keepSource_iff s).1 (List.mem_filter.1 hs).2
  · intro hg
    rcases hg with hg | hg <;> simp [hg, extractSources]
  · intro u ti u2 t3 hu hti hg
    simp [hg, extractSources, toSource, keepSource, truthyStr, hu, hti]

/-- Witness of C4: a response with the attributions both, only uri, only
title, and the first one repeated. -/
theorem sources_are_filtered_attributions_witness :
    (onlyPatient "65F").patientInfo.truthy = true ∧
      (envOf (answeringModel mixedResponse)).provides "k" (answeringModel mixedResponse) ∧
      ∃ res, (generateSoapNote (envOf (answeringModel mixedResponse))
          { auth := some { uid := "u1" }, data := some (onlyPatient "65F") }).outcome =
          .returned res ∧
        res.sources.Sublist (attributionPairs mixedResponse.groundingMetadata) ∧
        (∀ s, s.bothPresent →
          res.sources.count s = (attributionPairs mixedResponse.groundingMetadata).count s) ∧
        (∀ s ∈ res.sources, s.bothPresent) ∧
        ((mixedResponse.groundingMetadata = none ∨
            mixedResponse.groundingMetadata = some { groundingAttributions := none }) →
          res.sources = []) ∧
        (∀ u ti u2 t3, u ≠ "" → ti ≠ "" →
          mixedResponse.groundingMetadata = some { groundingAttributions := some [
              { web := some { uri := some u, title := some ti } },
              { web := some { uri := some u2, title := none } },
              { web := some { uri := none, title := some t3 } } ] } →
          res.sources = [{ uri := some u, title := some ti }]) :=
  ⟨rfl, ⟨rfl, rfl⟩,
    sources_are_filtered_attributions (envOf (answeringModel mixedResponse)) { uid := "u1" }
      (onlyPatient "65F") "k" (answeringModel mixedResponse) mixedResponse
      "note without delimiter" rfl ⟨rfl, rfl⟩ rfl rfl⟩


/-- C5: on a successful response with text `t` the returned `soapNote` is
exactly `t`, whatever `t` and the grounding metadata are; in scenario A the
result is exactly the text with an empty source list. -/
theorem soapNote_is_response_text (env : Env) (auth : Auth) (d : Payload)
    (key : String) (model : GenerativeModel) (r : Response) (t : String)
    (h : d.patientInfo.truthy = true) (hp : env.provides key model)
    (hr : model.generateContent (requestFor d) = .ok r) (ht : r.text = .ok t) :
    (∃ sources, (generateSoapNote env { auth := some auth, data := some d }).outcome =
        .returned { soapNote := t, sources := sources }) ∧
      (generateSoapNote (envOf (answeringModel scenarioAResponse)) scenarioARequest).outcome =
        .returned { soapNote := "S:...\n---GUIDELINES_USED---\n* ADA 2024", sources := [] } := by
  refine ⟨⟨extractSources r.groundingMetadata, ?_⟩, rfl⟩
  rw [outcome_accepted env auth d key model h hp]
  exact callModel_success model _ r t hr ht

/-- Witness of C5: a response text without the delimiter line. -/
theorem soapNote_is_response_text_witness :
    (onlyPatient "65F").patientInfo.truthy = true ∧
      (envOf (answeringModel plainResponse)).provides "k" (answeringModel plainResponse) ∧
      (∃ sources, (generateSoapNote (envOf (answeringModel plainResponse))
          { auth := some { uid := "u1" }, data := some (onlyPatient "65F") }).outcome =
          .returned { soapNote := "free text, no delimiter", sources := sources }) ∧
      (generateSoapNote (envOf (answeringModel scenarioAResponse)) scenarioARequest).outcome =
        .returned { soapNote := "S:...\n---GUIDELINES_USED---\n* ADA 2024", sources := [] } :=
  ⟨rfl, ⟨rfl, rfl⟩,
    soapNote_is_response_text (envOf (answeringModel plainResponse)) { uid := "u1" }
      (onlyPatient "65F") "k" (answeringModel plainResponse) plainResponse
      "free text, no delimiter" rfl ⟨rfl, rfl⟩ rfl rfl⟩

/-! ## The error boundary -/

theorem composeUserPrompt_toJson (d : Payload) :
    composeUserPrompt d.toJson = some (userPrompt d) := by
  simp only [composeUserPrompt, userPrompt, Payload.toJson, JsonField.render,
    JsonField.truthy, Option.map_some']
  cases d.specialtyFocus.truthy <;> cases d.uptodateInfo.truthy <;>
    cases d.micromedexInfo.truthy <;> cases d.openevidenceInfo.truthy <;> rfl

theorem callableHandler_toCallable (env : Env) (request : Request) :
    callableHandler env request.toCallable = generateSoapNote env request := by
  obtain ⟨auth, data⟩ := request
  cases auth with
  | none => rfl
  | some a =>
    cases data with
    | none => rfl
    | some d =>
      simp only [callableHandler, generateSoapNote, Request.toCallable, Option.map_some',
        composeUserPrompt_toJson]
      rfl

theorem callback_lets_failures_out :
    (generateSoapNote envNoSecret scenarioARequest).outcome = .uncaught (.error "no secret") ∧
      (generateSoapNote envNoModel scenarioARequest).outcome = .uncaught (.error "bad key") ∧
      (generateSoapNote envNoSecret noPayloadRequest).outcome = .uncaughtTypeError ∧
      (callableHandler (envOf (answeringModel scenarioAResponse))
        unprintableRequest).outcome = .uncaughtTypeError :=
  ⟨rfl, rfl, rfl, rfl⟩

theorem typed_internal (msg : String) :
    (Outcome.httpsError "internal" msg).resultOrTypedError :=
  Or.inr ⟨rfl, Or.inr (Or.inr kind_internal)⟩

theorem catchBlock_typedOrEscaped (e : Thrown) : (catchBlock e).outcome.typedOrEscaped := by
  cases e with
  | error m => exact Or.inl (typed_internal _)
  | noMessage => exact Or.inl (typed_internal _)
  | nullish => exact Or.inr (Or.inr rfl)

theorem callModel_typedOrEscaped (model : GenerativeModel) (req : GenerateContentRequest) :
    (callModel model req).outcome.typedOrEscaped := by
  cases hg : model.generateContent req with
  | error e =>
    simp only [callModel, hg]
    exact catchBlock_typedOrEscaped e
  | ok r =>
    cases ht : r.text with
    | error e =>
      simp only [callModel, hg, ht]
      exact catchBlock_typedOrEscaped e
    | ok t =>
      rw [callModel_success model req r t hg ht]
      exact Or.inl (Or.inl ⟨rfl, rfl⟩)

theorem callableHandler_typedOrEscaped (env : Env) (request : CallableRequest) :
    (callableHandler env request).outcome.typedOrEscaped := by
  obtain ⟨auth, data⟩ := request
  cases auth with
  | none => exact Or.inl (Or.inr ⟨rfl, Or.inl kind_unauthenticated⟩)
  | some a =>
    cases data with
    | none => exact Or.inr (Or.inr rfl)
    | some d =>
      cases hf : d.patientInfo.truthy with
      | false =>
        simp only [callableHandler, hf]
        exact Or.inl (Or.inr ⟨rfl, Or.inr (Or.inl kind_invalid_argument)⟩)
      | true =>
        cases hk : env.secretValue with
        | error e =>
          simp only [callableHandler, hf, hk]
          exact Or.inr (Or.inl ⟨e, rfl⟩)
        | ok key =>
          cases hm : env.getGenerativeModel key modelParams with
          | error e =>
            simp only [callableHandler, hf, hk, hm]
            exact Or.inr (Or.inl ⟨e, rfl⟩)
          | ok model =>
            cases hc : composeUserPrompt d with
            | none =>
              simp only [callableHandler, hf, hk, hm, hc]
              exact Or.inr (Or.inr rfl)
            | some prompt =>
              simp only [callableHandler, hf, hk, hm, hc]
              exact callModel_typedOrEscaped model _

theorem onCall_outcome (boundaryText : String) (callback : Env → CallableRequest → Run)
    (env : Env) (request : CallableRequest)
    (h : (callback env request).outcome.typedOrEscaped) :
    (onCall boundaryText callback env request).outcome.resultOrTypedError ∧
      ((callback env request).outcome.resultOrTypedError →
        (onCall boundaryText callback env request).outcome =
          (callback env request).outcome) := by
  unfold onCall
  cases ho : (callback env request).outcome with
  | returned r =>
    simp only [ho]
    exact ⟨Or.inl ⟨rfl, rfl⟩, fun _ => trivial⟩
  | httpsError code msg =>
    simp only [ho]
    rw [ho] at h
    rcases h with h | ⟨e, he⟩ | he
    · exact ⟨h, fun _ => trivial⟩
    · exact absurd he (by simp)
    · exact absurd he (by simp)
  | uncaught e =>
    simp only [ho]
    refine ⟨typed_internal _, fun hr => ?_⟩
    rcases hr with ⟨hr, -⟩ | ⟨-, hr⟩
    · exact absurd hr (by simp [Outcome.isResult])
    · simp [Outcome.errorKind] at hr
  | uncaughtTypeError =>
    simp only [ho]
    refine ⟨typed_internal _, fun hr => ?_⟩
    rcases hr with ⟨hr, -⟩ | ⟨-, hr⟩
    · exact absurd hr (by simp [Outcome.isResult])
    · simp [Outcome.errorKind] at hr

/-- C8: for every request the callable protocol can deliver (with or without
identity, any payload, an absent payload included) and every behaviour of the
credential lookup, the model construction and the remote call, the exported
generateSoapNote ends with a complete result or with exactly one typed error
of kind Unauthenticated, InvalidArgument or Internal; no failure leaves it
unconverted, and a result or typed error of the callback is passed on
unchanged. -/
theorem exported_result_or_typed_error (boundaryText : String) (env : Env)
    (request : CallableRequest) :
    (exportedGenerateSoapNote boundaryText env request).outcome.resultOrTypedError ∧
      (∀ e, (exportedGenerateSoapNote boundaryText env request).outcome ≠ .uncaught e) ∧
      (exportedGenerateSoapNote boundaryText env request).outcome ≠ .uncaughtTypeError ∧
      ((callableHandler env request).outcome.resultOrTypedError →
        (exportedGenerateSoapNote boundaryText env request).outcome =
          (callableHandler env request).outcome) := by
  have h := onCall_outcome boundaryText callableHandler env request
    (callableHandler_typedOrEscaped env request)
  refine ⟨h.1, ?_, ?_, h.2⟩
  · intro e he
    have h1 := h.1
    unfold exportedGenerateSoapNote at he
    rw [he] at h1
    rcases h1 with ⟨hr, -⟩ | ⟨-, hr⟩
    · exact absurd hr (by simp [Outcome.isResult])
    · simp [Outcome.errorKind] at hr
  · intro he
    have h1 := h.1
    unfold exportedGenerateSoapNote at he
    rw [he] at h1
    rcases h1 with ⟨hr, -⟩ | ⟨-, hr⟩
    · exact absurd hr (by simp [Outcome.isResult])
    · simp [Outcome.errorKind] at hr

/-- Witness of C8: a failing credential lookup and an unprintable `patientInfo`
end with the typed error Internal; scenario A ends with the result of the
callback, passed on unchanged. -/
theorem exported_result_or_typed_error_witness :
    (exportedGenerateSoapNote "INTERNAL" envNoSecret scenarioARequest.toCallable).outcome =
        .httpsError "internal" "INTERNAL" ∧
      (exportedGenerateSoapNote "INTERNAL" (envOf (answeringModel scenarioAResponse))
        unprintableRequest).outcome = .httpsError "internal" "INTERNAL" ∧
      (callableHandler (envOf (answeringModel scenarioAResponse))
        scenarioARequest.toCallable).outcome.resultOrTypedError ∧
      (exportedGenerateSoapNote "INTERNAL" (envOf (answeringModel scenarioAResponse))
        scenarioARequest.toCallable).outcome =
        .returned { soapNote := "S:...\n---GUIDELINES_USED---\n* ADA 2024", sources := [] } ∧
      (exportedGenerateSoapNote "INTERNAL" (envOf (answeringModel scenarioAResponse))
        scenarioARequest.toCallable).outcome.resultOrTypedError ∧
      (∀ e, (exportedGenerateSoapNote "INTERNAL" (envOf (answeringModel scenarioAResponse))
        scenarioARequest.toCallable).outcome ≠ .uncaught e) ∧
      (exportedGenerateSoapNote "INTERNAL" (envOf (answeringModel scenarioAResponse))
        scenarioARequest.toCallable).outcome ≠ .uncaughtTypeError ∧
      ((callableHandler (envOf (answeringModel scenarioAResponse))
          scenarioARequest.toCallable).outcome.resultOrTypedError →
        (exportedGenerateSoapNote "INTERNAL" (envOf (answeringModel scenarioAResponse))
          scenarioARequest.toCallable).outcome =
          (callableHandler (envOf (answeringModel scenarioAResponse))
            scenarioARequest.toCallable).outcome) :=
  ⟨rfl, rfl, Or.inl ⟨rfl, rfl⟩, rfl,
    exported_result_or_typed_error "INTERNAL" (envOf (answeringModel scenarioAResponse))
      scenarioARequest.toCallable⟩

/-! ## Prompt composition -/

theorem Field.content_eq (f : Field) :
    f.content = if f.truthy then some f.render else none := by
  cases f with
  | undefined => rfl
  | null => rfl
  | text s => by_cases h : s = "" <;> simp [Field.content, Field.truthy, Field.render, h]

theorem Field.truthy_iff (f : Field) : f.truthy = true ↔ ∃ s, f = .text s ∧ s ≠ "" := by
  cases f <;> simp [Field.truthy]

theorem join_nil : String.join [] = "" := rfl

theorem join_cons (s : String) (l : List String) : String.join (s :: l) = s ++ String.join l := by
  apply String.ext
  simp [String.data_join]

/-- C6: for a validated input the composed user message is the labeled
patient-data section around `patientInfo`, then, in the fixed order
specialtyFocus, uptodateInfo, micromedexInfo, openevidenceInfo, the fixed
labeled section around the text of each optional field that is present and
non-empty, then the fixed closing sentence; the included sections are those of
the included fields, which always follow the fixed order, and a field is
included exactly when it is a non-empty text. -/
theorem userPrompt_is_ordered_concatenation (d : Payload) (hv : validated d) :
    ∃ p, d.patientInfo = .text p ∧ p ≠ "" ∧
      userPrompt d =
        "--- 病患核心資料 (必填) START ---\n" ++ p ++ "\n--- 病患核心資料 END ---\n" ++
          sectionIfPresent d.specialtyFocus "\n--- 專科焦點 (選填) ---\n" "\n" ++
          sectionIfPresent d.uptodateInfo
            "\n--- UpToDate 資料 (選填) START ---\n" "\n--- UpToDate 資料 END ---\n" ++
          sectionIfPresent d.micromedexInfo
            "\n--- Micromedex 資料 (選填) START ---\n" "\n--- Micromedex 資料 END ---\n" ++
          sectionIfPresent d.openevidenceInfo
            "\n--- OpenEvidence 資料 (選填) START ---\n" "\n--- OpenEvidence 資料 END ---\n" ++
          "\n請根據上述所有資訊，使用最新的國際指引產生一份藥師 SOAP 筆記。" ∧
      userPrompt d =
        "--- 病患核心資料 (必填) START ---\n" ++ p ++ "\n--- 病患核心資料 END ---\n" ++
          String.join (optionalSections d) ++
          "\n請根據上述所有資訊，使用最新的國際指引產生一份藥師 SOAP 筆記。" ∧
      optionalSections d =
        (includedFields d).map (fun f => f.opening ++ (f.value d).render ++ f.ending) ∧
      (includedFields d).Sublist optionalFieldOrder ∧
      ∀ f, f ∈ includedFields d ↔ ∃ s, f.value d = .text s ∧ s ≠ "" := by
  obtain ⟨p, hp, hne⟩ := (Field.truthy_iff _).1 hv
  refine ⟨p, hp, hne, ?_, ?_, ?_, List.filter_sublist _, ?_⟩
  · simp only [userPrompt, sectionIfPresent, patientHeader, patientFooter, closingSentence,
      specialtySection, uptodateSection, micromedexSection, openevidenceSection, hp,
      Field.content_eq]
    cases d.specialtyFocus.truthy <;> cases d.uptodateInfo.truthy <;>
      cases d.micromedexInfo.truthy <;> cases d.openevidenceInfo.truthy <;>
      simp [Field.render, String.append_assoc]
  · simp only [userPrompt, optionalSections, optionalFieldOrder, patientHeader,
      patientFooter, closingSentence, specialtySection, uptodateSection, micromedexSection,
      openevidenceSection, hp, List.filterMap_cons, List.filterMap_nil,
      OptionalField.value, Field.content_eq]
    cases d.specialtyFocus.truthy <;> cases d.uptodateInfo.truthy <;>
      cases d.micromedexInfo.truthy <;> cases d.openevidenceInfo.truthy <;>
      simp [Field.render, OptionalField.labeledSection, OptionalField.opening,
        OptionalField.ending, join_cons, join_nil, String.append_assoc]
  · simp only [optionalSections, includedFields, optionalFieldOrder, List.filterMap_cons,
      List.filterMap_nil, List.filter_cons, List.filter_nil, OptionalField.value,
      Field.content_eq]
    cases d.specialtyFocus.truthy <;> cases d.uptodateInfo.truthy <;>
      cases d.micromedexInfo.truthy <;> cases d.openevidenceInfo.truthy <;>
      simp [OptionalField.value, OptionalField.labeledSection]
  · intro f
    simp only [includedFields, List.mem_filter, Field.content_eq, ← Field.truthy_iff]
    constructor
    · rintro ⟨-, h⟩
      cases ht : (f.value d).truthy with
      | true => rfl
      | false => simp [ht] at h
    · intro h
      refine ⟨?_, by simp [h]⟩
      cases f <;> simp [optionalFieldOrder]

/-- Witness of C6: a payload with a specialty focus and an UpToDate excerpt;
its user message is also given in full. -/
theorem userPrompt_is_ordered_concatenation_witness :
    validated twoFieldPayload ∧
      userPrompt twoFieldPayload =
        "--- 病患核心資料 (必填) START ---\nP\n--- 病患核心資料 END ---\n\n--- 專科焦點 (選填) ---\nY\n\n--- UpToDate 資料 (選填) START ---\nU\n--- UpToDate 資料 END ---\n\n請根據上述所有資訊，使用最新的國際指引產生一份藥師 SOAP 筆記。" ∧
      includedFields twoFieldPayload = [.specialtyFocus, .uptodateInfo] ∧
      ∃ p, twoFieldPayload.patientInfo = .text p ∧ p ≠ "" ∧
        userPrompt twoFieldPayload =
          "--- 病患核心資料 (必填) START ---\n" ++ p ++ "\n--- 病患核心資料 END ---\n" ++
            sectionIfPresent twoFieldPayload.specialtyFocus "\n--- 專科焦點 (選填) ---\n" "\n" ++
            sectionIfPresent twoFieldPayload.uptodateInfo
              "\n--- UpToDate 資料 (選填) START ---\n" "\n--- UpToDate 資料 END ---\n" ++
            sectionIfPresent twoFieldPayload.micromedexInfo
              "\n--- Micromedex 資料 (選填) START ---\n" "\n--- Micromedex 資料 END ---\n" ++
            sectionIfPresent twoFieldPayload.openevidenceInfo
              "\n--- OpenEvidence 資料 (選填) START ---\n"
              "\n--- OpenEvidence 資料 END ---\n" ++
            "\n請根據上述所有資訊，使用最新的國際指引產生一份藥師 SOAP 筆記。" ∧
        userPrompt twoFieldPayload =
          "--- 病患核心資料 (必填) START ---\n" ++ p ++ "\n--- 病患核心資料 END ---\n" ++
            String.join (optionalSections twoFieldPayload) ++
            "\n請根據上述所有資訊，使用最新的國際指引產生一份藥師 SOAP 筆記。" ∧
        optionalSections twoFieldPayload =
          (includedFields twoFieldPayload).map
            (fun f => f.opening ++ (f.value twoFieldPayload).render ++ f.ending) ∧
        (includedFields twoFieldPayload).Sublist optionalFieldOrder ∧
        ∀ f, f ∈ includedFields twoFieldPayload ↔
          ∃ s, f.value twoFieldPayload = .text s ∧ s ≠ "" :=
  ⟨rfl, rfl, rfl, userPrompt_is_ordered_concatenation twoFieldPayload rfl⟩

/-- C10: the composition is not injective: two distinct validated inputs, one
with a specialty focus and an UpToDate excerpt, the other with only a
specialty focus that carries the text of an UpToDate section, compose the same
user message. -/
theorem userPrompt_not_injective :
    (∃ a b : Payload, a ≠ b ∧ validated a ∧ validated b ∧ userPrompt a = userPrompt b) ∧
      twoFieldPayload ≠ smuggledPayload ∧
      userPrompt twoFieldPayload = userPrompt smuggledPayload ∧
      ¬ Function.Injective userPrompt := by
  have hne : twoFieldPayload ≠ smuggledPayload := by decide
  have heq : userPrompt twoFieldPayload = userPrompt smuggledPayload := rfl
  exact ⟨⟨twoFieldPayload, smuggledPayload, hne, rfl, rfl, heq⟩, hne, heq,
    fun hinj => hne (hinj heq)⟩


/-! ## Occurrences of label lines -/

theorem infix_split_at {α : Type} (L X Y : List α) (c : α) (hc : c ∉ L)
    (h : L <:+: X ++ c :: Y) : L <:+: X ∨ L <:+: Y := by
  obtain ⟨a, b, hab⟩ := h
  rw [List.append_assoc] at hab
  rcases List.append_eq_append_iff.1 hab with ⟨a', hX, hrest⟩ | ⟨c', ha, hrest⟩
  · -- the occurrence starts inside `X`
    rcases List.append_eq_append_iff.1 hrest with ⟨l', ha', _⟩ | ⟨l', hL, hcons⟩
    · left
      exact ⟨a, l', by rw [hX, ha', List.append_assoc]⟩
    · cases l' with
      | nil =>
        left
        refine ⟨a, [], ?_⟩
        rw [hX, hL]
        simp
      | cons x l'' =>
        simp only [List.cons_append, List.cons.injEq] at hcons
        exact absurd (by rw [hL, hcons.1]; simp) hc
  · -- the occurrence starts at or after `c`
    cases c' with
    | nil =>
      cases L with
      | nil => exact Or.inl ⟨[], X, by simp⟩
      | cons x L' =>
        simp only [List.nil_append, List.cons_append, List.cons.injEq] at hrest
        exact absurd (by rw [hrest.1]; simp) hc
    | cons x c'' =>
      simp only [List.cons_append, List.cons.injEq] at hrest
      right
      exact ⟨c'', b, by rw [hrest.2, List.append_assoc]⟩

theorem userPrompt_only_patient (d : Payload) (p : String) (hp : d.patientInfo = .text p)
    (h1 : d.specialtyFocus.truthy = false) (h2 : d.uptodateInfo.truthy = false)
    (h3 : d.micromedexInfo.truthy = false) (h4 : d.openevidenceInfo.truthy = false) :
    userPrompt d = patientHeader ++ p ++ patientFooter ++ closingSentence := by
  simp [userPrompt, hp, h1, h2, h3, h4, Field.render]

theorem patient_frame_data (p : String) :
    (patientHeader ++ p ++ patientFooter ++ closingSentence).data =
      patientLabel.data ++ '\n' :: (p.data ++ '\n' :: afterPatient.data) := by
  have hH : patientHeader.data = patientLabel.data ++ ['\n'] := rfl
  have hT : patientFooter.data ++ closingSentence.data = '\n' :: afterPatient.data := rfl
  simp only [String.data_append, List.append_assoc, hH, hT]
  simp

theorem labels_fit_no_frame :
    ∀ L ∈ otherSectionLabels,
      '\n' ∉ L.data ∧ ¬ occursIn L patientLabel ∧ ¬ occursIn L afterPatient := by
  decide

theorem occursIn_patient_frame (L p : String) (hL : L ∈ otherSectionLabels) :
    occursIn L (patientHeader ++ p ++ patientFooter ++ closingSentence) ↔ occursIn L p := by
  obtain ⟨hnl, hH, hT⟩ := labels_fit_no_frame L hL
  unfold occursIn at *
  rw [patient_frame_data]
  constructor
  · intro h
    rcases infix_split_at _ _ _ _ hnl h with h | h
    · exact absurd h hH
    · rcases infix_split_at _ _ _ _ hnl h with h | h
      · exact h
      · exact absurd h hT
  · intro h
    refine h.trans ?_
    exact ⟨patientLabel.data ++ ['\n'], '\n' :: afterPatient.data, by simp⟩

/-- C7 as stated fails: with none of the four optional fields set, the label
line of the specialty section still occurs in the user message when
`patientInfo` quotes it, because `patientInfo` is inserted verbatim. -/
theorem label_quoted_in_patientInfo_occurs :
    validated quotingPayload ∧
      quotingPayload.specialtyFocus = .undefined ∧ quotingPayload.uptodateInfo = .undefined ∧
      quotingPayload.micromedexInfo = .undefined ∧
      quotingPayload.openevidenceInfo = .undefined ∧
      "--- 專科焦點 (選填) ---" ∈ otherSectionLabels ∧
      occursIn "--- 專科焦點 (選填) ---" (userPrompt quotingPayload) ∧
      ¬ ∀ d : Payload, validated d →
        d.specialtyFocus.truthy = false → d.uptodateInfo.truthy = false →
        d.micromedexInfo.truthy = false → d.openevidenceInfo.truthy = false →
        ∀ L ∈ otherSectionLabels, ¬ occursIn L (userPrompt d) := by
  have hmem : "--- 專科焦點 (選填) ---" ∈ otherSectionLabels := by decide
  have hocc : occursIn "--- 專科焦點 (選填) ---" (userPrompt quotingPayload) := by decide
  exact ⟨rfl, rfl, rfl, rfl, rfl, hmem, hocc,
    fun h => h quotingPayload rfl rfl rfl rfl rfl _ hmem hocc⟩

/-- C7, amended: for a validated input with none of the four optional fields
set, the user message is exactly the patient-data section around `patientInfo`
followed by the closing sentence (the composer adds no other section), and a
label line of another section occurs in the message exactly when it occurs
inside `patientInfo` itself. -/
theorem only_patient_section_without_optionals (d : Payload) (hv : validated d)
    (h1 : d.specialtyFocus.truthy = false) (h2 : d.uptodateInfo.truthy = false)
    (h3 : d.micromedexInfo.truthy = false) (h4 : d.openevidenceInfo.truthy = false) :
    ∃ p, d.patientInfo = .text p ∧ p ≠ "" ∧
      userPrompt d = patientSection p ++ closingSentence ∧
      occursIn patientLabel (userPrompt d) ∧
      occursIn closingSentence (userPrompt d) ∧
      ∀ L ∈ otherSectionLabels, (occursIn L (userPrompt d) ↔ occursIn L p) := by
  obtain ⟨p, hp, hne⟩ := (Field.truthy_iff _).1 hv
  have hu := userPrompt_only_patient d p hp h1 h2 h3 h4
  refine ⟨p, hp, hne, hu, ?_, ?_, ?_⟩
  · rw [hu]
    unfold occursIn
    rw [patient_frame_data]
    exact (List.prefix_append _ _).isInfix
  · rw [hu]
    exact occursIn_append_right _ _
  · intro L hL
    rw [hu]
    exact occursIn_patient_frame L p hL

/-- Witness of C7, amended: the payload of scenario A. -/
theorem only_patient_section_without_optionals_witness :
    validated (onlyPatient "65F, HTN, eGFR 42") ∧
      ∃ p, (onlyPatient "65F, HTN, eGFR 42").patientInfo = .text p ∧ p ≠ "" ∧
        userPrompt (onlyPatient "65F, HTN, eGFR 42") = patientSection p ++ closingSentence ∧
        occursIn patientLabel (userPrompt (onlyPatient "65F, HTN, eGFR 42")) ∧
        occursIn closingSentence (userPrompt (onlyPatient "65F, HTN, eGFR 42")) ∧
        ∀ L ∈ otherSectionLabels,
          (occursIn L (userPrompt (onlyPatient "65F, HTN, eGFR 42")) ↔ occursIn L p) :=
  ⟨rfl, only_patient_section_without_optionals (onlyPatient "65F, HTN, eGFR 42") rfl
    rfl rfl rfl rfl⟩

end SoapWriter
